import Mathlib

/-!
# Verification of the todo-agent invocation pipeline

Shallow embedding of the core functions of `agent.py`, `main.py` and
`openai-client/agent.py` of the `simple-todo-agent` repository:
the todo cache (`fetch_todos`), the context formatter
(`format_todos_for_context`), the per-item tool (`get_todo_by_id_tool`),
the streaming generator (`run_todo_agent`), its batch wrapper
(`run_todo_agent_sync`), the SSE endpoint (`chat_stream` in `main.py`),
the CLI loop, and the four-way credential resolution
(`get_openai_client` in `openai-client/agent.py`).

External effects (HTTP responses, provider stream deltas, exceptions)
are passed in explicitly as values; the mutable module-level cache and
singleton are threaded as explicit state.
-/

set_option autoImplicit false
set_option maxRecDepth 8192

namespace TodoAgent

/-- A todo record as delivered by the upstream JSON API:
`{id, userId, title, completed}`. -/
structure Todo where
  id : Nat
  userId : Nat
  title : String
  completed : Bool
  deriving Repr, DecidableEq

/-! ## TodoSource: `fetch_todos` (agent.py lines 46-67)

The network is modelled as the outcome the single `client.get(TODO_API_URL)`
call would produce: either a transport-level exception with a message, or a
response carrying a status code and (parsed) JSON body. The module-level
`_todos_cache` is threaded explicitly. -/

/-- Outcome of one HTTP GET: `.error msg` models a raised transport
exception (or a JSON parse failure, also caught by the `except` block);
`.ok (code, body)` models a response with `status_code = code` whose
`json()` parses to `body`. -/
abbrev HttpGetOutcome : Type := Except String (Nat × List Todo)

/-- Result of one call to `fetch_todos`: the returned list, the cache
state after the call, and `networkCall = some t` when the call issued
one HTTP GET with a timeout of `t` seconds (`none`: no network call). -/
structure FetchResult where
  result : List Todo
  cache : Option (List Todo)
  networkCall : Option Nat
  deriving Repr, DecidableEq

/-- `fetch_todos` (agent.py lines 46-67): return the cache if populated;
otherwise issue one GET with `timeout=30.0`; on status 200 assign the body
to `_todos_cache` and return it; on any other status return `[]`; on an
exception return `[]`. Only the 200 branch assigns the cache. -/
def fetch_todos (cache : Option (List Todo)) (net : HttpGetOutcome) : FetchResult :=
  match cache with
  | some c => ⟨c, some c, none⟩
  | none =>
    match net with
    | .ok (code, body) =>
      if code = 200 then ⟨body, some body, some 30⟩
      else ⟨[], none, some 30⟩
    | .error _ => ⟨[], none, some 30⟩

/-! ## ContextFormatter: `format_todos_for_context` (agent.py lines 70-85) -/

/-- Body line for one todo (agent.py lines 82-83): the status glyph
(`"✓"` when completed, `"○"` otherwise), then `" [ID:"`, the id,
`"] (User "`, the userId, `") "`, and the title. -/
def todoLine (todo : Todo) : String :=
  (if todo.completed then "✓" else "○") ++
    " [ID:" ++ toString todo.id ++ "] (User " ++ toString todo.userId ++ ") " ++ todo.title

/-- `format_todos_for_context` (agent.py lines 70-85): `"No todos available."`
for an empty input; otherwise a header with `len(todos_subset)` of
`len(todos)`, a rule of fifty dashes (`"-" * 50`), one line per todo of the
subset `todos[:limit]`, joined with `"\n"`. -/
def format_todos_for_context (todos : List Todo) (limit : Nat := 50) : String :=
  if todos.isEmpty then "No todos available."
  else
    let todos_subset := todos.take limit
    let lines := ["Available Todos (" ++ toString todos_subset.length ++ " of " ++
      toString todos.length ++ " shown):"]
    let lines := lines ++ [String.mk (List.replicate 50 '-')]
    let lines := lines ++ todos_subset.map todoLine
    String.intercalate "\n" lines

/-! ## ToolInvoker: `get_todo_by_id_tool` (agent.py lines 88-119) -/

/-- Python `s.rstrip(chars)` semantics: remove trailing characters that are
members of the set `chars` (NOT removal of the suffix string `chars`). -/
def pyRstrip (s : String) (chars : List Char) : String :=
  ⟨(s.data.reverse.dropWhile (· ∈ chars)).reverse⟩

/-- The per-item URL built by `get_todo_by_id_tool` (agent.py lines 98-100):
`base_url = TODO_API_URL.rstrip("/todos").rstrip("/")` then
`url = base_url + "/todos/" + str(todo_id)`. -/
def buildTodoItemUrl (apiUrl : String) (todo_id : Int) : String :=
  let base_url := pyRstrip (pyRstrip apiUrl ['/', 't', 'o', 'd', 's']) ['/']
  base_url ++ "/todos/" ++ toString todo_id

/-- The per-item URL as the specification describes it: the configured
endpoint with a trailing `"/todos"` suffix removed when present, followed
by `"/todos/{id}"`. Stated from the words of the spec, for comparison with
`buildTodoItemUrl`, which is translated from the source. -/
def claimedTodoItemUrl (apiUrl : String) (todo_id : Int) : String :=
  let base := if "/todos".data.isSuffixOf apiUrl.data then apiUrl.dropRight 6 else apiUrl
  base ++ "/todos/" ++ toString todo_id

/-- Outcome of the single HTTP GET inside `get_todo_by_id_tool`:
`.success code todo` models a response with `status_code = code` whose
`json()` (only read on the 200 branch) parses to `todo`; `.exn msg` models
an exception raised anywhere inside the `try` block. -/
inductive ToolOutcome where
  | success (code : Nat) (todo : Todo)
  | exn (msg : String)
  deriving Repr, DecidableEq

/-- The success rendering of `get_todo_by_id_tool` (agent.py lines 106-113):
a `"Todo Details:"` header followed by the ID, User ID, Title and Status
lines. -/
def renderTodoDetails (todo : Todo) : String :=
  "Todo Details:\n" ++
  "  ID: " ++ toString todo.id ++ "\n" ++
  "  User ID: " ++ toString todo.userId ++ "\n" ++
  "  Title: " ++ todo.title ++ "\n" ++
  "  Status: " ++ (if todo.completed then "Completed ✓" else "Not completed ○")

/-- `get_todo_by_id_tool` (agent.py lines 88-119), given the outcome of its
network call: 200 → rendered details; 404 → not-found message; other
status → status error string; exception → fetch-error string. Every branch
returns a string (the `except` clause catches everything). -/
def get_todo_by_id_tool (todo_id : Int) (outcome : ToolOutcome) : String :=
  match outcome with
  | .success code todo =>
    if code = 200 then renderTodoDetails todo
    else if code = 404 then
      "Todo with ID " ++ toString todo_id ++ " not found. Valid IDs are 1-200."
    else "Error: API returned status " ++ toString code
  | .exn msg => "Error fetching todo " ++ toString todo_id ++ ": " ++ msg

/-! ## AgentSession: `run_todo_agent` (agent.py lines 174-239)

The provider stream is modelled by the sequence of `chunk.text` deltas the
`async for` loop observes, together with where (if anywhere) an exception
interrupts the invoke path. The configuration read inside the generator
(model deployment, API URL, fetched-todo count, user id) is the
environment. -/

/-- The environment `run_todo_agent` reads when building its metadata dict:
`MODEL_DEPLOYMENT`, `TODO_API_URL`, `len(todos)` from `fetch_todos`, and
the `user_id` argument (`None` modelled as `none`). -/
structure AgentEnv where
  modelDeployment : String
  apiUrl : String
  todosLoaded : Nat
  userId : Option String
  deriving Repr, DecidableEq

/-- Python `user_id or "anonymous"`: `None` and `""` are falsy. -/
def effectiveUserId : Option String → String
  | none => "anonymous"
  | some s => if s = "" then "anonymous" else s

/-- Hex digit used by `json.dumps` ASCII escapes (lowercase letters). -/
def hexDigit (n : Nat) : Char :=
  if n < 10 then Char.ofNat (48 + n) else Char.ofNat (87 + n)

/-- Four-digit lowercase hex rendering of a code point, as in `\uXXXX`. -/
def hex4 (n : Nat) : String :=
  String.mk [hexDigit (n / 4096 % 16), hexDigit (n / 256 % 16),
    hexDigit (n / 16 % 16), hexDigit (n % 16)]

/-- One character under `json.dumps` default (`ensure_ascii=True`) string
escaping: `"` and `\` are backslash-escaped, the common control characters
use their short escapes, every other character outside `0x20`-`0x7e` becomes
`\uXXXX`, and the rest pass through. -/
def jsonEscapeChar (c : Char) : String :=
  if c = '"' then "\\\""
  else if c = '\\' then "\\\\"
  else if c = '\n' then "\\n"
  else if c = '\r' then "\\r"
  else if c = '\t' then "\\t"
  else if c = '\x08' then "\\b"
  else if c = '\x0c' then "\\f"
  else if c.toNat < 32 ∨ 126 < c.toNat then "\\u" ++ hex4 c.toNat
  else String.singleton c

/-- `json.dumps` of a string value. -/
def jsonDumpsString (s : String) : String :=
  "\"" ++ String.join (s.data.map jsonEscapeChar) ++ "\""

/-- `json.dumps(metadata)` for the metadata dict of agent.py lines 228-234,
with the default separators `", "` and `": "` and the Python insertion
order of the five keys. -/
def metadataJson (env : AgentEnv) : String :=
  "\x7b\"model\": " ++ jsonDumpsString env.modelDeployment ++
  ", \"framework\": \"agent-framework\"" ++
  ", \"api_url\": " ++ jsonDumpsString env.apiUrl ++
  ", \"todos_loaded\": " ++ toString env.todosLoaded ++
  ", \"user_id\": " ++ jsonDumpsString (effectiveUserId env.userId) ++ "\x7d"

/-- The metadata trailer fragment yielded at agent.py line 235:
`f"\n__METADATA__:{json.dumps(metadata)}"` — note the leading newline. -/
def metadataFragment (env : AgentEnv) : String :=
  "\n__METADATA__:" ++ metadataJson env

/-- How one invocation of the invoke path unfolds, seen from the generator:
`.success deltas` — no exception anywhere; the provider stream delivered
the `chunk.text` values `deltas` in order and was exhausted.
`.failure deltasBefore msg` — an exception with message `msg` was raised
somewhere in the `try` block after the loop had already observed the
deltas `deltasBefore` (so `deltasBefore = []` when the provider, the todo
fetch or agent creation fails before any chunk arrives). -/
inductive InvokeOutcome where
  | success (deltas : List String)
  | failure (deltasBefore : List String) (msg : String)
  deriving Repr, DecidableEq

/-- The sequence of fragments `run_todo_agent` yields (agent.py
lines 174-239): every truthy (non-empty) `chunk.text` in order, then on
the success path the metadata trailer, or on the exception path the single
fragment `f"Error: {str(e)}"`. -/
def run_todo_agent (env : AgentEnv) (outcome : InvokeOutcome) : List String :=
  match outcome with
  | .success deltas =>
    deltas.filter (fun t => t ≠ "") ++ [metadataFragment env]
  | .failure deltasBefore msg =>
    deltasBefore.filter (fun t => t ≠ "") ++ ["Error: " ++ msg]

/-- The metadata filter every consumer applies:
`chunk.startswith("__METADATA__:")` (agent.py line 252, line 277;
main.py line 134, line 180). -/
def isMetadataChunk (chunk : String) : Bool :=
  "__METADATA__:".data.isPrefixOf chunk.data

/-- `run_todo_agent_sync` (agent.py lines 242-254): collect every chunk
for which `not chunk.startswith("__METADATA__:")` and join them with
`"".join`. -/
def run_todo_agent_sync (env : AgentEnv) (outcome : InvokeOutcome) : String :=
  String.join ((run_todo_agent env outcome).filter (fun c => ¬ isMetadataChunk c))

/-! ## HTTP surface: `chat_stream` (main.py lines 160-188) -/

/-- One SSE event of the `/chat/stream` generator (main.py line 182):
`"data: "` followed by the `json.dumps` rendering of the one-key dict
mapping `"text"` to the chunk, followed by a blank line. -/
def sseTextEvent (chunk : String) : String :=
  "data: \x7b\"text\": " ++ jsonDumpsString chunk ++ "\x7d\n\n"

/-- The body of the `/chat/stream` response (main.py lines 174-183): one
`data:` text event per chunk that does not satisfy
`chunk.startswith("__METADATA__:")`, then the sentinel
`"data: [DONE]\n\n"`. -/
def chat_stream_events (env : AgentEnv) (outcome : InvokeOutcome) : List String :=
  ((run_todo_agent env outcome).filter (fun c => ¬ isMetadataChunk c)).map sseTextEvent
    ++ ["data: [DONE]\n\n"]

/-! ## CLI loop (agent.py lines 260-284) and history flattening
(agent.py lines 209-220) -/

/-- One entry of the `chat_history` list of dicts:
`{"role": ..., "content": ...}`. -/
structure ChatMsg where
  role : String
  content : String
  deriving Repr, DecidableEq

/-- Python `str.lower` modelled characterwise; the CLI compares the
lowered stripped input with `"exit"` to decide termination (agent.py
line 266). -/
def pyLower (s : String) : String := ⟨s.data.map Char.toLower⟩

/-- The transcript line one history entry contributes to
`conversation_context` (agent.py lines 212-218): `"User: {content}\n"` for
role `"user"`, `"Assistant: {content}\n"` for role `"assistant"`, nothing
otherwise. -/
def transcriptLine (msg : ChatMsg) : String :=
  if msg.role = "user" then "User: " ++ msg.content ++ "\n"
  else if msg.role = "assistant" then "Assistant: " ++ msg.content ++ "\n"
  else ""

/-- `conversation_context` as accumulated by the loop of agent.py
lines 210-218, starting from `""` and appending one transcript line per
history entry in order. -/
def conversation_context (chat_history : List ChatMsg) : String :=
  chat_history.foldl (fun acc msg => acc ++ transcriptLine msg) ""

/-- `full_prompt = conversation_context + user_message`
(agent.py line 220): the prompt `run_todo_agent` submits to the provider. -/
def full_prompt (user_message : String) (chat_history : List ChatMsg) : String :=
  conversation_context chat_history ++ user_message

/-- The prompt submitted for one CLI iteration on input `user_input`
(agent.py lines 272-276): the CLI first appends
`{"role": "user", "content": user_input}` to `chat_history` and then calls
`run_todo_agent(user_input, chat_history)`. -/
def cli_submitted_prompt (chat_history : List ChatMsg) (user_input : String) : String :=
  full_prompt user_input (chat_history ++ [⟨"user", user_input⟩])

/-! ## Credential resolution: `get_openai_client`
(openai-client/agent.py lines 135-234)

The four environment variables the resolution reads are the configuration;
`os.getenv(..., "")` means an unset variable is the empty string, and
Python truthiness on strings makes `""` falsy. The singleton pair
`(_client, _client_initialized)` is the threaded state. -/

/-- The configuration read by `get_openai_client`. -/
structure ClientConfig where
  azureOpenaiEndpoint : String
  apimSubscriptionKey : String
  azureOpenaiApiKey : String
  openaiApiKey : String
  deriving Repr, DecidableEq

/-- Which of the four credential/connection strategies a successful
resolution constructed, with the material it was built from. -/
inductive CredStrategy where
  | foundryViaApim (endpoint key : String)
  | azureApiKey (endpoint key : String)
  | managedIdentity (endpoint : String)
  | directOpenAI (key : String)
  deriving Repr, DecidableEq

/-- The `ValueError` message raised when no strategy is configured
(openai-client/agent.py lines 225-231). -/
def noCredentialsMsg : String :=
  "No credentials configured. Set one of:\n" ++
  "  - AZURE_OPENAI_ENDPOINT + APIM_SUBSCRIPTION_KEY for Foundry via APIM\n" ++
  "  - AZURE_OPENAI_ENDPOINT + AZURE_OPENAI_API_KEY for Azure OpenAI with API key\n" ++
  "  - AZURE_OPENAI_ENDPOINT alone for Foundry with managed identity\n" ++
  "  - OPENAI_API_KEY for direct OpenAI API"

/-- The if/elif chain of openai-client/agent.py lines 155-231: option 1
endpoint + APIM subscription key, option 2 endpoint + Azure API key,
option 3 endpoint alone (managed-identity token provider), option 4 direct
OpenAI API key, otherwise `raise ValueError(...)`. -/
def resolveClient (cfg : ClientConfig) : Except String CredStrategy :=
  if cfg.azureOpenaiEndpoint ≠ "" ∧ cfg.apimSubscriptionKey ≠ "" then
    .ok (.foundryViaApim cfg.azureOpenaiEndpoint cfg.apimSubscriptionKey)
  else if cfg.azureOpenaiEndpoint ≠ "" ∧ cfg.azureOpenaiApiKey ≠ "" then
    .ok (.azureApiKey cfg.azureOpenaiEndpoint cfg.azureOpenaiApiKey)
  else if cfg.azureOpenaiEndpoint ≠ "" then
    .ok (.managedIdentity cfg.azureOpenaiEndpoint)
  else if cfg.openaiApiKey ≠ "" then
    .ok (.directOpenAI cfg.openaiApiKey)
  else .error noCredentialsMsg

/-- The singleton state `(_client_initialized, _client)`
(openai-client/agent.py lines 50-52). -/
structure ClientState where
  ready : Bool
  client : Option CredStrategy
  deriving Repr, DecidableEq

/-- The uninitialized state at module load. -/
def initialClientState : ClientState := ⟨false, none⟩

/-- `get_openai_client` (openai-client/agent.py lines 135-234): return the
singleton when `_client_initialized and _client is not None`; otherwise run
the four-way resolution; on success publish the client and set
`_client_initialized = True`; the `raise` on the no-credentials path leaves
the state untouched. -/
def get_openai_client (st : ClientState) (cfg : ClientConfig) :
    Except String CredStrategy × ClientState :=
  match st.ready, st.client with
  | true, some c => (.ok c, st)
  | _, _ =>
    match resolveClient cfg with
    | .ok s => (.ok s, ⟨true, some s⟩)
    | .error e => (.error e, st)

/-! ## Shared concrete instances for evaluation -/

/-- A concrete environment with the default model deployment and API URL
of agent.py lines 33 and 35 (no todos loaded, no user id). -/
def exampleEnv : AgentEnv :=
  ⟨"gpt-4o-mini", "https://jsonplaceholder.typicode.com/todos", 0, none⟩

/-! ## Theorems -/

/-- C1. The claim says `run_todo_agent_sync` concatenates all fragments
excluding the metadata trailer, which never appears in the batch result.
The code violates this: the trailer is yielded with a leading newline
(`"\n__METADATA__:..."`, agent.py line 235), so the filter
`chunk.startswith("__METADATA__:")` (agent.py line 252) never matches it
and the trailer is concatenated into the batch result. Evaluated here at a
successful invocation whose only stream delta is `"Hi"`. -/
theorem run_todo_agent_sync_keeps_trailer :
    run_todo_agent_sync exampleEnv (.success ["Hi"])
        = "Hi" ++ metadataFragment exampleEnv ∧
    run_todo_agent_sync exampleEnv (.success ["Hi"]) ≠ "Hi" ∧
    isMetadataChunk (metadataFragment exampleEnv) = false := by
  refine ⟨rfl, by decide, rfl⟩

/-- C6. The claim says the `/chat/stream` body for produced text fragments
`["Hi", " there"]` is exactly the two text events followed by
`data: [DONE]`, and that metadata-trailer fragments are never delivered as
text events. The code violates this: the trailer fragment begins with a
newline, escapes the `startswith("__METADATA__:")` filter of main.py
line 180, and is serialized as a third `data:` text event before the
sentinel. -/
theorem chat_stream_delivers_trailer_event :
    chat_stream_events exampleEnv (.success ["Hi", " there"])
        = [sseTextEvent "Hi", sseTextEvent " there",
           sseTextEvent (metadataFragment exampleEnv), "data: [DONE]\n\n"] ∧
    chat_stream_events exampleEnv (.success ["Hi", " there"])
        ≠ [sseTextEvent "Hi", sseTextEvent " there", "data: [DONE]\n\n"] ∧
    sseTextEvent "Hi" = "data: \x7b\"text\": \"Hi\"\x7d\n\n" ∧
    sseTextEvent " there" = "data: \x7b\"text\": \" there\"\x7d\n\n" := by
  refine ⟨rfl, by decide, rfl, rfl⟩

/-- C3. The claim says the per-item URL is the configured endpoint with a
trailing `"/todos"` suffix removed (when present) followed by
`"/todos/{id}"`. The code computes the base with
`TODO_API_URL.rstrip("/todos")`, which strips trailing characters drawn
from the SET `/,t,o,d,s` rather than the suffix string, contradicting the
source comment `Remove /todos suffix if present` (agent.py line 98): for
the endpoint `"https://api.test/todos"` it also eats the `st` of
`api.test`. The default endpoint happens to be unaffected. -/
theorem buildTodoItemUrl_divergence :
    buildTodoItemUrl "https://api.test/todos" 5 = "https://api.te/todos/5" ∧
    claimedTodoItemUrl "https://api.test/todos" 5 = "https://api.test/todos/5" ∧
    buildTodoItemUrl "https://api.test/todos" 5
        ≠ claimedTodoItemUrl "https://api.test/todos" 5 ∧
    buildTodoItemUrl "https://jsonplaceholder.typicode.com/todos" 5
        = "https://jsonplaceholder.typicode.com/todos/5" := by
  refine ⟨rfl, rfl, by decide, rfl⟩

/-- The metadata trailer begins with a newline, so it is never equal to an
error fragment, which begins with the letter E. -/
theorem metadataFragment_ne_error_frag (env : AgentEnv) (msg : String) :
    metadataFragment env ≠ "Error: " ++ msg := by
  intro h
  have hL : (metadataFragment env).data.head? = some '\n' := by
    show (("\n__METADATA__:" : String) ++ metadataJson env).data.head? = some '\n'
    rw [String.data_append]
    rfl
  have hR : (("Error: " ++ msg : String)).data.head? = some 'E' := by
    rw [String.data_append]
    rfl
  rw [h, hR] at hL
  exact (by decide : ('E' : Char) ≠ '\n') (Option.some.inj hL)

/-- C2. The fragment sequence of `run_todo_agent`: on the success path it
is the non-empty stream deltas in order followed by the metadata trailer,
which is therefore the final fragment and (when no delta coincides with
it) occurs exactly once; on the exception path it is the deltas observed
before the exception followed by the single fragment `"Error: {msg}"`,
and no metadata trailer occurs. -/
theorem run_todo_agent_trailer_discipline (env : AgentEnv) (outcome : InvokeOutcome) :
    (∀ deltas, outcome = .success deltas →
      run_todo_agent env outcome
          = deltas.filter (fun t => t ≠ "") ++ [metadataFragment env] ∧
      (run_todo_agent env outcome).getLast? = some (metadataFragment env) ∧
      (metadataFragment env ∉ deltas →
        (run_todo_agent env outcome).count (metadataFragment env) = 1)) ∧
    (∀ deltasBefore msg, outcome = .failure deltasBefore msg →
      run_todo_agent env outcome
          = deltasBefore.filter (fun t => t ≠ "") ++ ["Error: " ++ msg] ∧
      (run_todo_agent env outcome).getLast? = some ("Error: " ++ msg) ∧
      (metadataFragment env ∉ deltasBefore →
        metadataFragment env ∉ run_todo_agent env outcome)) := by
  constructor
  · rintro deltas rfl
    refine ⟨rfl, ?_, ?_⟩
    · simp [run_todo_agent]
    · intro hmem
      show ((deltas.filter (fun t => t ≠ "")) ++ [metadataFragment env]).count
          (metadataFragment env) = 1
      rw [List.count_append]
      have h0 : (deltas.filter (fun t => t ≠ "")).count (metadataFragment env) = 0 := by
        rw [List.count_eq_zero]
        intro hc
        exact hmem (List.mem_of_mem_filter hc)
      rw [h0]
      simp
  · rintro deltasBefore msg rfl
    refine ⟨rfl, ?_, ?_⟩
    · simp [run_todo_agent]
    · intro hmem hin
      rcases List.mem_append.mp hin with h | h
      · exact hmem (List.mem_of_mem_filter h)
      · exact metadataFragment_ne_error_frag env msg (List.mem_singleton.mp h)

/-- Witness for C2: a successful invocation with the single delta `"Hi"`
and a failed invocation with message `"boom"`, evaluated concretely. -/
theorem run_todo_agent_trailer_discipline_witness :
    run_todo_agent exampleEnv (.success ["Hi"])
        = ["Hi"] ++ [metadataFragment exampleEnv] ∧
    (run_todo_agent exampleEnv (.success ["Hi"])).count (metadataFragment exampleEnv) = 1 ∧
    run_todo_agent exampleEnv (.failure [] "boom") = ["Error: boom"] ∧
    metadataFragment exampleEnv ∉ run_todo_agent exampleEnv (.failure [] "boom") := by
  have hs := (run_todo_agent_trailer_discipline exampleEnv (.success ["Hi"])).1 ["Hi"] rfl
  have hf := (run_todo_agent_trailer_discipline exampleEnv
    (.failure [] "boom")).2 [] "boom" rfl
  refine ⟨?_, ?_, ?_, ?_⟩
  · simpa using hs.1
  · exact hs.2.2 (by decide)
  · simpa using hf.1
  · exact hf.2.2 (by decide)

/-- C5. Cache policy of `fetch_todos`: a populated cache is returned
verbatim with no network call; a cache miss issues exactly one GET with a
30-second timeout; only HTTP 200 populates the cache (with the body, which
is returned); any non-200 status or transport failure returns the empty
sequence and leaves the cache unpopulated. Hence after a successful first
call a second call performs no network call, and after a failed first call
the state is unchanged and a second call retries the GET. -/
theorem fetch_todos_cache_policy (cache : Option (List Todo))
    (net net2 : HttpGetOutcome) :
    (∀ c, cache = some c → fetch_todos cache net = ⟨c, some c, none⟩) ∧
    ((fetch_todos none net).networkCall = some 30) ∧
    (∀ body, net = .ok (200, body) → fetch_todos none net = ⟨body, some body, some 30⟩) ∧
    (∀ code body, net = .ok (code, body) → code ≠ 200 →
      fetch_todos none net = ⟨[], none, some 30⟩) ∧
    (∀ msg, net = .error msg → fetch_todos none net = ⟨[], none, some 30⟩) ∧
    (∀ body, net = .ok (200, body) →
      fetch_todos (fetch_todos none net).cache net2 = ⟨body, some body, none⟩) ∧
    ((fetch_todos none net).cache = none →
      (fetch_todos (fetch_todos none net).cache net2).networkCall = some 30) := by
  refine ⟨?_, ?_, ?_, ?_, ?_, ?_, ?_⟩
  · rintro c rfl
    rfl
  · rcases net with msg | ⟨code, body⟩
    · rfl
    · show (fetch_todos none (.ok (code, body))).networkCall = some 30
      simp only [fetch_todos]
      split <;> rfl
  · rintro body rfl
    rfl
  · rintro code body rfl hne
    simp only [fetch_todos, if_neg hne]
  · rintro msg rfl
    rfl
  · rintro body rfl
    rfl
  · intro h
    rw [h]
    rcases net2 with msg | ⟨code, body⟩
    · rfl
    · simp only [fetch_todos]
      split <;> rfl

/-- Witness for C5: concrete runs through the 200, 404 and transport-error
branches, and the corresponding second calls. -/
theorem fetch_todos_cache_policy_witness :
    fetch_todos (some [⟨1, 1, "a", true⟩]) (.error "down")
        = ⟨[⟨1, 1, "a", true⟩], some [⟨1, 1, "a", true⟩], none⟩ ∧
    fetch_todos none (.ok (200, [⟨1, 1, "a", true⟩]))
        = ⟨[⟨1, 1, "a", true⟩], some [⟨1, 1, "a", true⟩], some 30⟩ ∧
    fetch_todos none (.ok (503, [])) = ⟨[], none, some 30⟩ ∧
    fetch_todos none (.error "timeout") = ⟨[], none, some 30⟩ ∧
    fetch_todos (fetch_todos none (.ok (200, [⟨1, 1, "a", true⟩]))).cache (.error "down")
        = ⟨[⟨1, 1, "a", true⟩], some [⟨1, 1, "a", true⟩], none⟩ ∧
    (fetch_todos (fetch_todos none (.ok (503, []))).cache (.ok (200, []))).networkCall
        = some 30 := by
  refine ⟨?_, ?_, ?_, ?_, ?_, ?_⟩
  · exact (fetch_todos_cache_policy (some [⟨1, 1, "a", true⟩]) (.error "down")
      (.error "down")).1 [⟨1, 1, "a", true⟩] rfl
  · exact (fetch_todos_cache_policy none (.ok (200, [⟨1, 1, "a", true⟩]))
      (.error "down")).2.2.1 [⟨1, 1, "a", true⟩] rfl
  · exact (fetch_todos_cache_policy none (.ok (503, []))
      (.ok (200, []))).2.2.2.1 503 [] rfl (by decide)
  · exact (fetch_todos_cache_policy none (.error "timeout")
      (.error "timeout")).2.2.2.2.1 "timeout" rfl
  · exact (fetch_todos_cache_policy none (.ok (200, [⟨1, 1, "a", true⟩]))
      (.error "down")).2.2.2.2.2.1 [⟨1, 1, "a", true⟩] rfl
  · exact (fetch_todos_cache_policy none (.ok (503, []))
      (.ok (200, []))).2.2.2.2.2.2 (by decide)

/-- C10. An HTTP 200 with an empty JSON array populates the cache with the
empty list; once the cache holds any value (the empty list included) a
call returns that value with no network request; and a cache miss leaves
the cache unset exactly when the response is not an HTTP 200. -/
theorem fetch_todos_empty_200_populates (v : List Todo) (net net2 : HttpGetOutcome) :
    fetch_todos none (.ok (200, ([] : List Todo))) = ⟨[], some [], some 30⟩ ∧
    fetch_todos (some v) net = ⟨v, some v, none⟩ ∧
    fetch_todos (fetch_todos none (.ok (200, ([] : List Todo)))).cache net2
        = ⟨[], some [], none⟩ ∧
    ((fetch_todos none net).cache = none ↔ ∀ body, net ≠ .ok (200, body)) := by
  refine ⟨rfl, rfl, rfl, ?_⟩
  constructor
  · rintro h body rfl
    simp [fetch_todos] at h
  · intro h
    rcases net with msg | ⟨code, body⟩
    · rfl
    · by_cases hc : code = 200
      · subst hc
        exact absurd rfl (h body)
      · simp only [fetch_todos, if_neg hc]

/-- Witness for C10: a failed fetch leaves the cache unset, derived from
the iff of the claim theorem at a concrete transport error. -/
theorem fetch_todos_empty_200_populates_witness :
    (fetch_todos none (.error "down")).cache = none :=
  (fetch_todos_empty_200_populates [] (.error "down") (.error "down")).2.2.2.mpr
    (fun _ h => Except.noConfusion h)

/-- Number of newline characters in a string; a string with `k` newlines
renders as `k + 1` display lines. -/
def countNewlines (s : String) : Nat := s.data.count '\n'

theorem countNewlines_append (a b : String) :
    countNewlines (a ++ b) = countNewlines a + countNewlines b := by
  simp [countNewlines, String.data_append, List.count_append]

theorem digitChar_ne_newline (n : Nat) : Nat.digitChar n ≠ '\n' := by
  rcases Nat.lt_or_ge n 16 with h | h
  · interval_cases n <;> decide
  · unfold Nat.digitChar
    repeat rw [if_neg (by omega)]
    decide

theorem toDigitsCore_ne_newline (b : Nat) :
    ∀ (fuel n : Nat) (ds : List Char), (∀ c ∈ ds, c ≠ '\n') →
      ∀ c ∈ Nat.toDigitsCore b fuel n ds, c ≠ '\n' := by
  intro fuel
  induction fuel with
  | zero =>
    intro n ds h c hc
    exact h c hc
  | succ fuel ih =>
    intro n ds h c hc
    rw [Nat.toDigitsCore] at hc
    have hcons : ∀ c ∈ Nat.digitChar (n % b) :: ds, c ≠ '\n' := by
      intro c hc
      rcases List.mem_cons.mp hc with hc | hc
      · rw [hc]
        exact digitChar_ne_newline _
      · exact h c hc
    by_cases h0 : n / b = 0
    · rw [if_pos h0] at hc
      exact hcons c hc
    · rw [if_neg h0] at hc
      exact ih (n / b) (Nat.digitChar (n % b) :: ds) hcons c hc

/-- The decimal rendering of a natural number contains no newline. -/
theorem countNewlines_repr (n : Nat) : countNewlines (toString n) = 0 := by
  have hrepr : (toString n).data = Nat.toDigitsCore 10 (n + 1) n [] := rfl
  rw [countNewlines, hrepr, List.count_eq_zero]
  intro hmem
  exact toDigitsCore_ne_newline 10 (n + 1) n [] (fun c hc => absurd hc (List.not_mem_nil c))
    '\n' hmem rfl

/-- C4. `get_todo_by_id_tool` never propagates a failure: HTTP 200 yields
the rendered Todo details (a `Todo Details:` header and the four detail
lines ID, User ID, Title, Status — four newlines when the title has none);
HTTP 404 yields the not-found message naming the requested id and the
1-200 range; any other status yields an error string carrying the status
code; an exception yields an error string carrying the exception text.
Every branch returns a displayable string. -/
theorem get_todo_by_id_tool_boundary (todo_id : Int) (outcome : ToolOutcome) :
    (∀ todo, outcome = .success 200 todo →
      get_todo_by_id_tool todo_id outcome = renderTodoDetails todo ∧
      (countNewlines todo.title = 0 →
        countNewlines (renderTodoDetails todo) = 4)) ∧
    (∀ todo, outcome = .success 404 todo →
      get_todo_by_id_tool todo_id outcome =
        "Todo with ID " ++ toString todo_id ++ " not found. Valid IDs are 1-200.") ∧
    (∀ code todo, outcome = .success code todo → code ≠ 200 → code ≠ 404 →
      get_todo_by_id_tool todo_id outcome = "Error: API returned status " ++ toString code) ∧
    (∀ msg, outcome = .exn msg →
      get_todo_by_id_tool todo_id outcome =
        "Error fetching todo " ++ toString todo_id ++ ": " ++ msg) := by
  refine ⟨?_, ?_, ?_, ?_⟩
  · rintro todo rfl
    refine ⟨rfl, ?_⟩
    intro htitle
    rw [renderTodoDetails]
    simp only [countNewlines_append]
    rw [countNewlines_repr todo.id, countNewlines_repr todo.userId, htitle]
    cases todo.completed <;> decide
  · rintro todo rfl
    rfl
  · rintro code todo rfl h200 h404
    simp only [get_todo_by_id_tool, if_neg h200, if_neg h404]
  · rintro msg rfl
    rfl

/-- Witness for C4: the four branches evaluated at concrete inputs,
matching the upstream fixture shape for todo 5. -/
theorem get_todo_by_id_tool_boundary_witness :
    get_todo_by_id_tool 5 (.success 200 ⟨5, 1, "laboriosam mollitia", false⟩)
        = renderTodoDetails ⟨5, 1, "laboriosam mollitia", false⟩ ∧
    countNewlines (renderTodoDetails ⟨5, 1, "laboriosam mollitia", false⟩) = 4 ∧
    get_todo_by_id_tool 9999 (.success 404 ⟨0, 0, "", false⟩)
        = "Todo with ID 9999 not found. Valid IDs are 1-200." ∧
    get_todo_by_id_tool 7 (.success 503 ⟨0, 0, "", false⟩)
        = "Error: API returned status 503" ∧
    get_todo_by_id_tool 7 (.exn "boom") = "Error fetching todo 7: boom" := by
  have h200 := (get_todo_by_id_tool_boundary 5
    (.success 200 ⟨5, 1, "laboriosam mollitia", false⟩)).1 ⟨5, 1, "laboriosam mollitia", false⟩ rfl
  refine ⟨h200.1, h200.2 (by decide), ?_, ?_, ?_⟩
  · exact (get_todo_by_id_tool_boundary 9999
      (.success 404 ⟨0, 0, "", false⟩)).2.1 ⟨0, 0, "", false⟩ rfl
  · exact (get_todo_by_id_tool_boundary 7
      (.success 503 ⟨0, 0, "", false⟩)).2.2.1 503 ⟨0, 0, "", false⟩ rfl
      (by decide) (by decide)
  · exact (get_todo_by_id_tool_boundary 7 (.exn "boom")).2.2.2 "boom" rfl

/-- The header line as the claim describes it: shown-count of total-count. -/
def claimedHeaderLine (shown total : Nat) : String :=
  "Available Todos (" ++ toString shown ++ " of " ++ toString total ++ " shown):"

/-- The separator rule emitted after the header (fifty dashes). -/
def separatorRule : String := String.mk (List.replicate 50 '-')

/-- C7. `format_todos_for_context` on an empty sequence is exactly
`"No todos available."`; on a non-empty sequence of `n` todos with limit
`k` it is the header reporting `min k n` of `n`, the separator rule, and
one body line per todo for the first `min k n` todos in source order,
joined by newlines; the body lines preserve the source positions. -/
theorem format_todos_for_context_spec (todos : List Todo) (limit : Nat) :
    format_todos_for_context [] limit = "No todos available." ∧
    (todos ≠ [] →
      format_todos_for_context todos limit
          = String.intercalate "\n"
              (claimedHeaderLine (min limit todos.length) todos.length
                :: separatorRule :: (todos.take limit).map todoLine) ∧
      ((todos.take limit).map todoLine).length = min limit todos.length ∧
      (∀ i, i < min limit todos.length → (todos.take limit)[i]? = todos[i]?)) := by
  constructor
  · rfl
  · intro hne
    refine ⟨?_, ?_, ?_⟩
    · rw [format_todos_for_context]
      rw [if_neg (by simpa [List.isEmpty_iff] using hne)]
      simp [claimedHeaderLine, separatorRule, List.length_take]
    · simp [List.length_take]
    · intro i hi
      exact List.getElem?_take_of_lt (by omega)

/-- Witness for C7: the five-element example of the specification with
limit 2 gives the header `2 of 5` and exactly two body lines. -/
theorem format_todos_for_context_spec_witness :
    format_todos_for_context
        [⟨1, 1, "a", true⟩, ⟨2, 1, "b", false⟩, ⟨3, 2, "c", true⟩,
         ⟨4, 2, "d", false⟩, ⟨5, 3, "e", true⟩] 2
      = String.intercalate "\n"
          (claimedHeaderLine (min 2 5) 5 :: separatorRule ::
            ([⟨1, 1, "a", true⟩, ⟨2, 1, "b", false⟩, ⟨3, 2, "c", true⟩,
              ⟨4, 2, "d", false⟩, ⟨5, 3, "e", true⟩].take 2).map todoLine) ∧
    claimedHeaderLine (min 2 5) 5 = "Available Todos (2 of 5 shown):" ∧
    (([⟨1, 1, "a", true⟩, ⟨2, 1, "b", false⟩, ⟨3, 2, "c", true⟩,
       ⟨4, 2, "d", false⟩, ⟨5, 3, "e", true⟩].take 2).map todoLine).length = 2 := by
  refine ⟨?_, rfl, rfl⟩
  exact ((format_todos_for_context_spec
    [⟨1, 1, "a", true⟩, ⟨2, 1, "b", false⟩, ⟨3, 2, "c", true⟩,
     ⟨4, 2, "d", false⟩, ⟨5, 3, "e", true⟩] 2).2 (by decide)).1

/-- `get_openai_client` on a not-yet-initialized singleton always runs the
four-way resolution. -/
theorem get_openai_client_not_ready (st : ClientState) (cfg : ClientConfig)
    (hst : st.ready = false) :
    get_openai_client st cfg
      = match resolveClient cfg with
        | .ok s => (.ok s, ⟨true, some s⟩)
        | .error e => (.error e, st) := by
  obtain ⟨ready, cl⟩ := st
  cases ready
  · rfl
  · exact absurd hst (by simp)

/-- C8. The credential resolution of `get_openai_client` on an
uninitialized singleton: the first fully-configured of the four strategies
wins, in the fixed order endpoint+gateway key, endpoint+API key, endpoint
alone (workload identity), direct OpenAI key; with nothing configured it
returns the configuration error, leaves the state untouched, and a
subsequent call behaves exactly like a fresh one (it retries the
resolution). -/
theorem get_openai_client_resolution (st : ClientState) (cfg cfg' : ClientConfig)
    (hst : st.ready = false) :
    (cfg.azureOpenaiEndpoint ≠ "" → cfg.apimSubscriptionKey ≠ "" →
      get_openai_client st cfg
        = (.ok (.foundryViaApim cfg.azureOpenaiEndpoint cfg.apimSubscriptionKey),
           ⟨true, some (.foundryViaApim cfg.azureOpenaiEndpoint cfg.apimSubscriptionKey)⟩)) ∧
    (cfg.azureOpenaiEndpoint ≠ "" → cfg.apimSubscriptionKey = "" →
      cfg.azureOpenaiApiKey ≠ "" →
      get_openai_client st cfg
        = (.ok (.azureApiKey cfg.azureOpenaiEndpoint cfg.azureOpenaiApiKey),
           ⟨true, some (.azureApiKey cfg.azureOpenaiEndpoint cfg.azureOpenaiApiKey)⟩)) ∧
    (cfg.azureOpenaiEndpoint ≠ "" → cfg.apimSubscriptionKey = "" →
      cfg.azureOpenaiApiKey = "" →
      get_openai_client st cfg
        = (.ok (.managedIdentity cfg.azureOpenaiEndpoint),
           ⟨true, some (.managedIdentity cfg.azureOpenaiEndpoint)⟩)) ∧
    (cfg.azureOpenaiEndpoint = "" → cfg.openaiApiKey ≠ "" →
      get_openai_client st cfg
        = (.ok (.directOpenAI cfg.openaiApiKey),
           ⟨true, some (.directOpenAI cfg.openaiApiKey)⟩)) ∧
    (cfg.azureOpenaiEndpoint = "" → cfg.openaiApiKey = "" →
      get_openai_client st cfg = (.error noCredentialsMsg, st) ∧
      get_openai_client (get_openai_client st cfg).2 cfg'
        = get_openai_client st cfg') := by
  refine ⟨?_, ?_, ?_, ?_, ?_⟩
  · intro h1 h2
    have hr : resolveClient cfg
        = .ok (.foundryViaApim cfg.azureOpenaiEndpoint cfg.apimSubscriptionKey) := by
      simp only [resolveClient]
      rw [if_pos ⟨h1, h2⟩]
    rw [get_openai_client_not_ready st cfg hst, hr]
  · intro h1 h2 h3
    have hr : resolveClient cfg
        = .ok (.azureApiKey cfg.azureOpenaiEndpoint cfg.azureOpenaiApiKey) := by
      simp only [resolveClient]
      rw [if_neg (fun hand => hand.2 h2), if_pos ⟨h1, h3⟩]
    rw [get_openai_client_not_ready st cfg hst, hr]
  · intro h1 h2 h3
    have hr : resolveClient cfg = .ok (.managedIdentity cfg.azureOpenaiEndpoint) := by
      simp only [resolveClient]
      rw [if_neg (fun hand => hand.2 h2), if_neg (fun hand => hand.2 h3), if_pos h1]
    rw [get_openai_client_not_ready st cfg hst, hr]
  · intro h1 h2
    have hr : resolveClient cfg = .ok (.directOpenAI cfg.openaiApiKey) := by
      simp only [resolveClient]
      rw [if_neg (fun hand => hand.1 h1), if_neg (fun hand => hand.1 h1),
        if_neg (fun hh => hh h1), if_pos h2]
    rw [get_openai_client_not_ready st cfg hst, hr]
  · intro h1 h2
    have hr : resolveClient cfg = .error noCredentialsMsg := by
      simp only [resolveClient]
      rw [if_neg (fun hand => hand.1 h1), if_neg (fun hand => hand.1 h1),
        if_neg (fun hh => hh h1), if_neg (fun hh => hh h2)]
    have hfail : get_openai_client st cfg = (.error noCredentialsMsg, st) := by
      rw [get_openai_client_not_ready st cfg hst, hr]
    exact ⟨hfail, by rw [hfail]⟩

/-- Witness for C8: concrete configurations exercising the first strategy,
the failure path and the retry after failure. -/
theorem get_openai_client_resolution_witness :
    get_openai_client initialClientState ⟨"https://ep", "apim-key", "az-key", "oai-key"⟩
        = (.ok (.foundryViaApim "https://ep" "apim-key"),
           ⟨true, some (.foundryViaApim "https://ep" "apim-key")⟩) ∧
    get_openai_client initialClientState ⟨"", "", "", ""⟩
        = (.error noCredentialsMsg, initialClientState) ∧
    get_openai_client (get_openai_client initialClientState ⟨"", "", "", ""⟩).2
        ⟨"", "", "", "sk-1"⟩
        = get_openai_client initialClientState ⟨"", "", "", "sk-1"⟩ := by
  have h1 := (get_openai_client_resolution initialClientState
    ⟨"https://ep", "apim-key", "az-key", "oai-key"⟩ ⟨"", "", "", "sk-1"⟩ rfl).1
    (by decide) (by decide)
  have h5 := (get_openai_client_resolution initialClientState
    ⟨"", "", "", ""⟩ ⟨"", "", "", "sk-1"⟩ rfl).2.2.2.2 rfl rfl
  exact ⟨h1, h5.1, h5.2⟩

/-- C9. In the CLI loop the current input is first appended to the chat
history and `run_todo_agent` then flattens that same history in front of
the new message, so the submitted prompt ends with the transcript line
`User: {input}` followed by the input once more — the message appears
twice. -/
theorem cli_prompt_duplicates_input (chat_history : List ChatMsg) (user_input : String)
    (_hne : user_input ≠ "") (_hquit : pyLower user_input ≠ "exit") :
    cli_submitted_prompt chat_history user_input
      = conversation_context chat_history ++ ("User: " ++ user_input ++ "\n")
          ++ user_input := by
  rw [cli_submitted_prompt, full_prompt, conversation_context, List.foldl_append]
  simp only [List.foldl_cons, List.foldl_nil]
  rw [show transcriptLine ⟨"user", user_input⟩ = "User: " ++ user_input ++ "\n" from rfl]
  rfl

/-- Witness for C9: one CLI turn on the input `get todo 5` with an empty
history. -/
theorem cli_prompt_duplicates_input_witness :
    cli_submitted_prompt [] "get todo 5"
      = conversation_context [] ++ ("User: " ++ "get todo 5" ++ "\n") ++ "get todo 5" :=
  cli_prompt_duplicates_input [] "get todo 5" (by decide) (by decide)

end TodoAgent







